import Mathlib

/-!
Verification development for the SEKHEM flood-monitoring pipeline
(`sekhem_utils.py`, `cache_manager.py`, `config.py`).

Shallow embedding conventions:
* Earth-Engine per-pixel raster arithmetic is modelled pointwise over `ℚ`
  (reflectances, index values, pixel areas, dates-in-days are all rationals).
* A region is a finite list of pixels; a boolean mask is the `Bool` component
  of each pixel.
* The remote aggregation service is modelled by an `Except`/`Option` outcome
  so its failure paths (`try/except`, missing dictionary key, null value)
  stay explicit.
* `diskcache.Cache` is modelled as an association list
  `(key, stored Python value, expiry time)`; a stored Python value may be
  `None`, hence values of type `Option β`.
-/

/-! ## Configuration constants (`config.py`, `sekhem_utils.py` module level) -/

/-- `config.py` line 95: `WATER_THRESHOLD_MNDWI = 0.0`. -/
def WATER_THRESHOLD_MNDWI : ℚ := 0

/-- `config.py` line 96: `WATER_THRESHOLD_NDWI = 0.1`. -/
def WATER_THRESHOLD_NDWI : ℚ := 1/10

/-- `sekhem_utils.py` line 62: `NDBI_THRESHOLD = 0.1`. -/
def NDBI_THRESHOLD : ℚ := 1/10

/-- `sekhem_utils.py` line 63: `NDVI_THRESHOLD = 0.4`. -/
def NDVI_THRESHOLD : ℚ := 2/5

/-- `sekhem_utils.py` line 64: `URBAN_WEIGHT = 3`. -/
def URBAN_WEIGHT : ℚ := 3

/-! ## Spectral indices (`Utils.calculate_indices`, `sekhem_utils.py` 269-291) -/

/-- Raw Sentinel-2 reflectance bands of one pixel, before the `/10000`
rescaling done in `calculate_indices` (B2 blue, B3 green, B4 red, B8 NIR,
B11 SWIR1). -/
structure Bands where
  b2 : ℚ
  b3 : ℚ
  b4 : ℚ
  b8 : ℚ
  b11 : ℚ

/-- `Utils._ratio` (line 266-267): `a.subtract(b).divide(a.add(b))`. -/
def ratio (a b : ℚ) : ℚ := (a - b) / (a + b)

/-- The five derived index values of one pixel. -/
structure Indices where
  mndwi : ℚ
  ndwi : ℚ
  ndvi : ℚ
  ndbi : ℚ
  nbsi : ℚ

/-- Per-pixel embedding of `Utils.calculate_indices` (lines 269-287): each
band is divided by 10000 and the five normalized-difference indices are
computed; the bare-soil index NBSI uses `ratio(b11 + b4, b8 + b2)`,
i.e. (SWIR1+red) against (NIR+blue). -/
def calculate_indices (img : Bands) : Indices :=
  let b2 := img.b2 / 10000
  let b3 := img.b3 / 10000
  let b4 := img.b4 / 10000
  let b8 := img.b8 / 10000
  let b11 := img.b11 / 10000
  { mndwi := ratio b3 b11
    ndwi := ratio b3 b8
    ndvi := ratio b8 b4
    ndbi := ratio b11 b8
    nbsi := ratio (b11 + b4) (b8 + b2) }

/-- The bare-soil formula as the spec words it ("bare-soil =
ratio(SWIR1+red, NIR+green)"), written down only to be compared with the
source's `nbsi`; the source uses NIR+blue where this uses NIR+green. -/
def spec_bare_soil_index (img : Bands) : ℚ :=
  ratio (img.b11 / 10000 + img.b4 / 10000) (img.b8 / 10000 + img.b3 / 10000)

/-! ## Weighted risk score (`calculate_enhanced_statistics`, lines 478-495) -/

/-- The weighted-risk expression of `calculate_enhanced_statistics`
(lines 483-489): `urban*URBAN_WEIGHT + agricultural*1.5 + rural + forest*0.5`. -/
def calculate_enhanced_statistics_risk
    (urban_area rural_area agricultural_area forest_area : ℚ) : ℚ :=
  urban_area * URBAN_WEIGHT + agricultural_area * (3/2) + rural_area
    + forest_area * (1/2)

/-! ## Per-class flooded-area statistic (`calculate_enhanced_statistics`,
lines 450-476) -/

/-- A region pixel for area statistics: the boolean mask value and the
per-pixel area in m² (`ee.Image.pixelArea()`). -/
abbrev RegionPixel := Bool × ℚ

/-- Masked area sum: `mask.unmask(0).selfMask().multiply(ee.Image.pixelArea())`
followed by `ee.Reducer.sum()` over the region (lines 453-464) sums the
pixel areas of the mask's true pixels. -/
def maskedAreaSum (region : List RegionPixel) : ℚ :=
  (region.map (fun px => if px.1 then px.2 else 0)).sum

/-- Outcome of the remote aggregation call for one class:
`Except.error` = the `reduceRegion`/`getInfo` call raised (caught at
line 474), `Except.ok none` = the result dictionary lacks the band key or
holds a null (the `ee.Algorithms.If` ladder, lines 465-471),
`Except.ok (some v)` = a numeric sum `v` in m². -/
def areaStatOfResult (r : Except Unit (Option ℚ)) : ℚ :=
  match r with
  | Except.error _ => 0
  | Except.ok none => 0
  | Except.ok (some v) => v / 10000

/-- The per-class statistic on the successful path: the masked area sum is
returned by the service and converted to hectares (line 472). -/
def calculate_enhanced_statistics_area (region : List RegionPixel) : ℚ :=
  areaStatOfResult (Except.ok (some (maskedAreaSum region)))

/-! ## Alert ladder (`generate_enhanced_alert_system`, lines 498-549) -/

/-- The alert-relevant part of the dictionary built by
`generate_enhanced_alert_system`. -/
structure AlertInfo where
  alert_level : ℕ
  alert_message : String
  priority_zones : List String
deriving DecidableEq

/-- The first-match decision ladder of `generate_enhanced_alert_system`
(lines 508-534), as a function of the four per-class flooded areas in
hectares.  The forest area is read (line 505) but used by no rule. -/
def generate_enhanced_alert_system
    (urban_flood_ha rural_flood_ha agricultural_flood_ha _forest_flood_ha : ℚ) :
    AlertInfo :=
  if 1000 < urban_flood_ha then
    ⟨4, "ALERTE ROUGE : Inondations urbaines majeures",
      ["zones urbaines critiques"]⟩
  else if 500 < urban_flood_ha then
    ⟨3, "ALERTE ORANGE : Inondations urbaines importantes", ["zones urbaines"]⟩
  else if 100 < urban_flood_ha then
    ⟨2, "ALERTE JAUNE : Inondations urbaines modérées",
      ["zones urbaines localisées"]⟩
  else if 10 < urban_flood_ha then
    ⟨1, "VIGILANCE : Inondations urbaines mineures détectées",
      ["quelques zones urbaines"]⟩
  else if 5000 < agricultural_flood_ha ∨ 10000 < rural_flood_ha then
    ⟨1, "VIGILANCE : Inondations importantes en zones rurales/agricoles",
      (if 5000 < agricultural_flood_ha then ["zones agricoles"] else [])
        ++ (if 10000 < rural_flood_ha then ["zones rurales"] else [])⟩
  else
    ⟨0, "Aucune inondation significative détectée", []⟩

/-! ## Theorems -/

/-- C4: the weighted risk score equals
urban×3 + agricultural×1.5 + rural×1 + forest×0.5, is monotone in each of
the four inputs, and scaling all four inputs by k scales the score by
exactly k. -/
theorem weighted_risk_spec (u r a f u2 r2 a2 f2 k : ℚ) :
    calculate_enhanced_statistics_risk u r a f
        = u * 3 + a * (3/2) + r * 1 + f * (1/2) ∧
    (u ≤ u2 → calculate_enhanced_statistics_risk u r a f
        ≤ calculate_enhanced_statistics_risk u2 r a f) ∧
    (r ≤ r2 → calculate_enhanced_statistics_risk u r a f
        ≤ calculate_enhanced_statistics_risk u r2 a f) ∧
    (a ≤ a2 → calculate_enhanced_statistics_risk u r a f
        ≤ calculate_enhanced_statistics_risk u r a2 f) ∧
    (f ≤ f2 → calculate_enhanced_statistics_risk u r a f
        ≤ calculate_enhanced_statistics_risk u r a f2) ∧
    calculate_enhanced_statistics_risk (k * u) (k * r) (k * a) (k * f)
        = k * calculate_enhanced_statistics_risk u r a f := by
  unfold calculate_enhanced_statistics_risk URBAN_WEIGHT
  refine ⟨by ring, fun h => by linarith, fun h => by linarith,
    fun h => by linarith, fun h => by linarith, by ring⟩

/-- Witness for `weighted_risk_spec` at a concrete input. -/
theorem weighted_risk_spec_witness :
    calculate_enhanced_statistics_risk 1 1 1 1
      ≤ calculate_enhanced_statistics_risk 2 1 1 1 ∧
    calculate_enhanced_statistics_risk (2 * 1) (2 * 2) (2 * 3) (2 * 4)
      = 2 * calculate_enhanced_statistics_risk 1 2 3 4 :=
  ⟨(weighted_risk_spec 1 1 1 1 2 1 1 1 0).2.1 (by norm_num),
    (weighted_risk_spec 1 2 3 4 0 0 0 0 2).2.2.2.2.2⟩

/-- C1: the alert ladder is first-match: urban > 1000 gives level 4 with the
"ALERTE ROUGE" message and the critical-urban zone list; else urban > 500
level 3; else urban > 100 level 2; else urban > 10 level 1; else
agricultural > 5000 or rural > 10000 gives level 1 with exactly the zone
labels whose thresholds triggered; otherwise level 0, the "Aucune
inondation significative détectée" message, and an empty zone list.  In
particular urban=1200 with all others 0 gives level 4 with "ALERTE ROUGE"
in the message, and all-zero areas give level 0 with empty zones. -/
theorem alert_ladder (u r a f : ℚ)
    (hu : 0 ≤ u) (hr : 0 ≤ r) (ha : 0 ≤ a) (hf : 0 ≤ f) :
    (1000 < u → generate_enhanced_alert_system u r a f
        = ⟨4, "ALERTE ROUGE : Inondations urbaines majeures",
            ["zones urbaines critiques"]⟩) ∧
    (¬ 1000 < u → 500 < u → generate_enhanced_alert_system u r a f
        = ⟨3, "ALERTE ORANGE : Inondations urbaines importantes",
            ["zones urbaines"]⟩) ∧
    (¬ 500 < u → 100 < u → generate_enhanced_alert_system u r a f
        = ⟨2, "ALERTE JAUNE : Inondations urbaines modérées",
            ["zones urbaines localisées"]⟩) ∧
    (¬ 100 < u → 10 < u → generate_enhanced_alert_system u r a f
        = ⟨1, "VIGILANCE : Inondations urbaines mineures détectées",
            ["quelques zones urbaines"]⟩) ∧
    (¬ 10 < u → 5000 < a ∨ 10000 < r →
        generate_enhanced_alert_system u r a f
        = ⟨1, "VIGILANCE : Inondations importantes en zones rurales/agricoles",
            (if 5000 < a then ["zones agricoles"] else [])
              ++ (if 10000 < r then ["zones rurales"] else [])⟩) ∧
    (¬ 10 < u → ¬ 5000 < a → ¬ 10000 < r →
        generate_enhanced_alert_system u r a f
        = ⟨0, "Aucune inondation significative détectée", []⟩) ∧
    (generate_enhanced_alert_system 1200 0 0 0).alert_level = 4 ∧
    "ALERTE ROUGE".data.isPrefixOf
        (generate_enhanced_alert_system 1200 0 0 0).alert_message.data = true ∧
    generate_enhanced_alert_system 0 0 0 0
        = ⟨0, "Aucune inondation significative détectée", []⟩ := by
  refine ⟨?_, ?_, ?_, ?_, ?_, ?_, by decide, by decide, by decide⟩
  · intro h1
    simp [generate_enhanced_alert_system, if_pos h1]
  · intro h1 h2
    simp [generate_enhanced_alert_system, if_neg h1, if_pos h2]
  · intro h2 h3
    have h1 : ¬ 1000 < u := fun h => h2 (by linarith)
    simp [generate_enhanced_alert_system, if_neg h1, if_neg h2, if_pos h3]
  · intro h3 h4
    have h2 : ¬ 500 < u := fun h => h3 (by linarith)
    have h1 : ¬ 1000 < u := fun h => h2 (by linarith)
    simp [generate_enhanced_alert_system, if_neg h1, if_neg h2, if_neg h3,
      if_pos h4]
  · intro h4 h5
    have h3 : ¬ 100 < u := fun h => h4 (by linarith)
    have h2 : ¬ 500 < u := fun h => h3 (by linarith)
    have h1 : ¬ 1000 < u := fun h => h2 (by linarith)
    simp [generate_enhanced_alert_system, if_neg h1, if_neg h2, if_neg h3,
      if_neg h4, if_pos h5]
  · intro h4 ha5 hr5
    have h3 : ¬ 100 < u := fun h => h4 (by linarith)
    have h2 : ¬ 500 < u := fun h => h3 (by linarith)
    have h1 : ¬ 1000 < u := fun h => h2 (by linarith)
    have h5 : ¬ (5000 < a ∨ 10000 < r) := by
      rintro (h | h)
      · exact ha5 h
      · exact hr5 h
    simp [generate_enhanced_alert_system, if_neg h1, if_neg h2, if_neg h3,
      if_neg h4, if_neg h5]

/-- Witness for `alert_ladder`: Scenario A, urban=1200 ha and all other
areas zero, yields alert level 4 with the "ALERTE ROUGE" message. -/
theorem alert_ladder_witness :
    generate_enhanced_alert_system 1200 0 0 0
      = ⟨4, "ALERTE ROUGE : Inondations urbaines majeures",
          ["zones urbaines critiques"]⟩ :=
  (alert_ladder 1200 0 0 0 (by norm_num) (by norm_num) (by norm_num)
    (by norm_num)).1 (by norm_num)

/-- C8 counterexample: on the concrete pixel with blue=2000, green=1000,
red=3000, NIR=2000, SWIR1=3000 (reflectances ×10000), the code's bare-soil
index NBSI = ratio(SWIR1+red, NIR+blue) evaluates to 1/5, while the spec's
formula ratio(SWIR1+red, NIR+green) evaluates to 1/3, so the claim's
bare-soil formula does not match `calculate_indices`. -/
theorem nbsi_blue_vs_green_counterexample :
    (calculate_indices ⟨2000, 1000, 3000, 2000, 3000⟩).nbsi = 1/5 ∧
    spec_bare_soil_index ⟨2000, 1000, 3000, 2000, 3000⟩ = 1/3 ∧
    (calculate_indices ⟨2000, 1000, 3000, 2000, 3000⟩).nbsi
      ≠ spec_bare_soil_index ⟨2000, 1000, 3000, 2000, 3000⟩ := by
  refine ⟨?_, ?_, ?_⟩ <;> norm_num [calculate_indices, spec_bare_soil_index,
    ratio]

/-- C8 amended: `calculate_indices` computes, on reflectances scaled to
[0,1] by dividing each band by 10000, vegetation = ratio(NIR, red),
near-water = ratio(green, NIR), water = ratio(green, SWIR1), built-up =
ratio(SWIR1, NIR), and bare-soil = ratio(SWIR1+red, NIR+blue). -/
theorem calculate_indices_formulas (img : Bands) :
    (calculate_indices img).ndvi = ratio (img.b8 / 10000) (img.b4 / 10000) ∧
    (calculate_indices img).ndwi = ratio (img.b3 / 10000) (img.b8 / 10000) ∧
    (calculate_indices img).mndwi = ratio (img.b3 / 10000) (img.b11 / 10000) ∧
    (calculate_indices img).ndbi = ratio (img.b11 / 10000) (img.b8 / 10000) ∧
    (calculate_indices img).nbsi
      = ratio (img.b11 / 10000 + img.b4 / 10000)
          (img.b8 / 10000 + img.b2 / 10000) :=
  ⟨rfl, rfl, rfl, rfl, rfl⟩

/-- C5: the per-class flooded-area statistic is non-negative whenever the
per-pixel areas are, it is 0 on an empty (all-false or pixel-less) mask,
and each failure path of `calculate_enhanced_statistics` — missing band
key or null aggregation value (`Except.ok none`) and a failing service
call (`Except.error`) — yields 0 instead of an exception. -/
theorem area_stat_spec :
    (∀ region : List RegionPixel, (∀ px ∈ region, 0 ≤ px.2) →
        0 ≤ calculate_enhanced_statistics_area region) ∧
    (∀ region : List RegionPixel, (∀ px ∈ region, px.1 = false) →
        calculate_enhanced_statistics_area region = 0) ∧
    calculate_enhanced_statistics_area [] = 0 ∧
    areaStatOfResult (Except.ok none) = 0 ∧
    areaStatOfResult (Except.error ()) = 0 := by
  refine ⟨?_, ?_, by simp [calculate_enhanced_statistics_area,
      areaStatOfResult, maskedAreaSum], rfl, rfl⟩
  · intro region h
    have hsum : 0 ≤ maskedAreaSum region := by
      apply List.sum_nonneg
      intro x hx
      rcases List.mem_map.mp hx with ⟨px, hpx, rfl⟩
      by_cases hb : px.1 <;> simp [hb]
      exact h px hpx
    simp only [calculate_enhanced_statistics_area, areaStatOfResult]
    positivity
  · intro region h
    have hsum : maskedAreaSum region = 0 := by
      unfold maskedAreaSum
      rw [List.sum_eq_zero]
      intro x hx
      rcases List.mem_map.mp hx with ⟨px, hpx, rfl⟩
      simp [h px hpx]
    simp [calculate_enhanced_statistics_area, areaStatOfResult, hsum]

/-- Witness for `area_stat_spec` at a concrete region. -/
theorem area_stat_spec_witness :
    0 ≤ calculate_enhanced_statistics_area [(true, 5), (false, 7)] ∧
    calculate_enhanced_statistics_area [(false, 5), (false, 7)] = 0 :=
  ⟨area_stat_spec.1 [(true, 5), (false, 7)] (by decide),
    area_stat_spec.2.1 [(false, 5), (false, 7)] (by decide)⟩

/-! ## Land-cover classification (`classify_land_cover`, lines 347-389) -/

/-- Per-pixel inputs of `classify_land_cover`: the four index values
selected from the median composite, plus the optional urban reference mask
value (`self.urban_mask` is `None` when the GHSL load failed, line 334;
otherwise it supplies a boolean per pixel). -/
structure IndexPixel where
  mndwi : ℚ
  ndwi : ℚ
  ndvi : ℚ
  ndbi : ℚ
  urbanRef : Option Bool

/-- Line 354: `mndwi.gt(WATER_THRESHOLD_MNDWI).And(ndwi.gt(WATER_THRESHOLD_NDWI))`. -/
def water_mask (p : IndexPixel) : Bool :=
  decide (WATER_THRESHOLD_MNDWI < p.mndwi) && decide (WATER_THRESHOLD_NDWI < p.ndwi)

/-- Lines 356-359: the GHSL reference mask when available, otherwise the
NDBI/NDVI fallback `ndbi.gt(NDBI_THRESHOLD).And(ndvi.lt(0.2))`. -/
def urban_mask (p : IndexPixel) : Bool :=
  match p.urbanRef with
  | some b => b
  | none => decide (NDBI_THRESHOLD < p.ndbi) && decide (p.ndvi < 1/5)

/-- Line 361: `ndvi.gt(NDVI_THRESHOLD)`. -/
def vegetation_mask (p : IndexPixel) : Bool :=
  decide (NDVI_THRESHOLD < p.ndvi)

/-- Line 364: `ndvi.gt(0.2).And(ndvi.lt(NDVI_THRESHOLD)).And(ndbi.lt(NDBI_THRESHOLD))`. -/
def agricultural_mask (p : IndexPixel) : Bool :=
  decide (1/5 < p.ndvi) && decide (p.ndvi < NDVI_THRESHOLD)
    && decide (p.ndbi < NDBI_THRESHOLD)

/-- Line 366: `ndvi.lt(0.2).And(ndbi.lt(NDBI_THRESHOLD))`. -/
def bare_soil_mask (p : IndexPixel) : Bool :=
  decide (p.ndvi < 1/5) && decide (p.ndbi < NDBI_THRESHOLD)

/-- `ee.Image.where(test, value)`: overwrite the pixel with `value` where
the test mask is true. -/
def imageWhere (v : ℕ) (cond : Bool) (newVal : ℕ) : ℕ :=
  if cond then newVal else v

/-- Per-pixel embedding of the categorical raster of `classify_land_cover`
(lines 368-374): start from 0 and overwrite in order bare-soil → 0,
agricultural → 1, vegetation → 2, urban → 3, water → 4 (later wins). -/
def classify_land_cover (p : IndexPixel) : ℕ :=
  imageWhere
    (imageWhere
      (imageWhere
        (imageWhere
          (imageWhere 0 (bare_soil_mask p) 0)
          (agricultural_mask p) 1)
        (vegetation_mask p) 2)
      (urban_mask p) 3)
    (water_mask p) 4

/-- Number of pixels of a region labelled with class `k`. -/
def classCount (k : ℕ) (l : List IndexPixel) : ℕ :=
  l.countP (fun p => classify_land_cover p == k)

/-- Every pixel's label is one of the five classes 0..4. -/
theorem classify_land_cover_lt_five (p : IndexPixel) : classify_land_cover p < 5 := by
  unfold classify_land_cover imageWhere
  split <;> [omega; split <;> [omega; split <;> [omega; split <;> [omega; split <;> omega]]]]

/-- C2: the five land-cover classes are mutually exclusive and exhaustive
over valid pixels: for any list of pixels (any input index rasters), the
per-class pixel counts of the five classes sum to the total pixel count,
i.e. every pixel receives exactly one of the five labels. -/
theorem classify_partition (l : List IndexPixel) :
    classCount 0 l + classCount 1 l + classCount 2 l + classCount 3 l
      + classCount 4 l = l.length := by
  induction l with
  | nil => simp [classCount]
  | cons p t ih =>
    have hc : classify_land_cover p < 5 := classify_land_cover_lt_five p
    simp only [classCount, List.countP_cons, List.length_cons] at *
    by_cases h0 : classify_land_cover p = 0 <;>
      by_cases h1 : classify_land_cover p = 1 <;>
        by_cases h2 : classify_land_cover p = 2 <;>
          by_cases h3 : classify_land_cover p = 3 <;>
            by_cases h4 : classify_land_cover p = 4 <;>
              simp_all <;> omega

/-- C3: the overwrite order gives strict priority
water > urban > vegetation > agricultural > bare soil: the label is 4 when
the water predicate holds (in particular for a pixel satisfying both the
vegetation and the water predicates), 3 when only the urban predicate
holds among the higher ones, then 2, then 1, and 0 otherwise. -/
theorem classify_priority (p : IndexPixel) :
    (vegetation_mask p = true → water_mask p = true →
        classify_land_cover p = 4) ∧
    (water_mask p = true → classify_land_cover p = 4) ∧
    (water_mask p = false → urban_mask p = true →
        classify_land_cover p = 3) ∧
    (water_mask p = false → urban_mask p = false →
        vegetation_mask p = true → classify_land_cover p = 2) ∧
    (water_mask p = false → urban_mask p = false →
        vegetation_mask p = false → agricultural_mask p = true →
        classify_land_cover p = 1) ∧
    (water_mask p = false → urban_mask p = false →
        vegetation_mask p = false → agricultural_mask p = false →
        classify_land_cover p = 0) := by
  unfold classify_land_cover imageWhere
  refine ⟨?_, ?_, ?_, ?_, ?_, ?_⟩ <;> intros <;> simp_all

/-- Witness for `classify_priority`: a concrete pixel satisfying both the
vegetation predicate and the water predicate is labelled water (4). -/
theorem classify_priority_witness :
    vegetation_mask ⟨1, 1, 1, 0, none⟩ = true ∧
    water_mask ⟨1, 1, 1, 0, none⟩ = true ∧
    classify_land_cover ⟨1, 1, 1, 0, none⟩ = 4 :=
  ⟨by norm_num [vegetation_mask, NDVI_THRESHOLD],
    by norm_num [water_mask, WATER_THRESHOLD_MNDWI, WATER_THRESHOLD_NDWI],
    (classify_priority ⟨1, 1, 1, 0, none⟩).1
      (by norm_num [vegetation_mask, NDVI_THRESHOLD])
      (by norm_num [water_mask, WATER_THRESHOLD_MNDWI, WATER_THRESHOLD_NDWI])⟩

/-! ## Temporal change analysis (`temporal_flood_analysis`, lines 685-700) -/

/-- Insertion into a sorted list of rationals. -/
def insertRat (x : ℚ) : List ℚ → List ℚ
  | [] => [x]
  | y :: ys => if x ≤ y then x :: y :: ys else y :: insertRat x ys

/-- Insertion sort of rationals (helper for the median reducer). -/
def sortRat : List ℚ → List ℚ
  | [] => []
  | x :: xs => insertRat x (sortRat xs)

/-- The per-pixel `median()` reducer of an image collection: `none` when the
collection is empty (the composite then has no bands, line 693), the middle
of the sorted values for an odd count, and the mean of the two middle
values for an even count. -/
def medianRat (l : List ℚ) : Option ℚ :=
  let s := sortRat l
  let n := s.length
  if n = 0 then none
  else if n % 2 = 1 then some (s.getD (n / 2) 0)
  else some ((s.getD (n / 2 - 1) 0 + s.getD (n / 2) 0) / 2)

/-- Per-pixel embedding of `Utils.temporal_flood_analysis` (lines 685-700).
A snapshot is a pair (acquisition date, MNDWI value at the pixel); dates
are rationals (days).  The window `[begining, end)` is split at its date
midpoint `mid = begining + (end - begining)/2`; `p1` is the median over
snapshots with date in `[begining, mid)` and `p2` over `[mid, end)`
(`filterDate` is inclusive-exclusive).  If either half is empty the
function returns without producing anything (line 693-694); otherwise it
returns the change `p2 - p1` together with the change-area flag
`|change| > 0.2` (lines 696-698). -/
def temporal_flood_analysis (begining end_ : ℚ) (snaps : List (ℚ × ℚ)) :
    Option (ℚ × Bool) :=
  let mid := begining + (end_ - begining) / 2
  let p1 := medianRat
    ((snaps.filter (fun s => decide (begining ≤ s.1) && decide (s.1 < mid))).map
      Prod.snd)
  let p2 := medianRat
    ((snaps.filter (fun s => decide (mid ≤ s.1) && decide (s.1 < end_))).map
      Prod.snd)
  match p1, p2 with
  | some a, some b => some (b - a, decide (1/5 < |b - a|))
  | _, _ => none

/-- C9 counterexample: with exactly 2 snapshots (dates 1 and 9 in the
window [0, 10), MNDWI values 0 and 1/2), `temporal_flood_analysis` does
not return a 0.0 trend as the claim states for fewer than 3 snapshots: it
returns the change 1/2 − 0 = 1/2 with the change flag set. -/
theorem temporal_two_snapshot_counterexample :
    temporal_flood_analysis 0 10 [(1, 0), (9, 1/2)]
      = some (1/2, true) ∧ (1/2 : ℚ) ≠ 0 := by
  constructor
  · norm_num [temporal_flood_analysis, medianRat, sortRat, insertRat,
      List.filter, List.getD, abs]
  · norm_num

/-- C9 amended: `temporal_flood_analysis` has no minimum snapshot count and
computes no count-based thirds; for any snapshot list it splits the window
at its date midpoint, takes the median index over each half, and yields
change = lateMedian − earlyMedian with the change flag |change| > 0.2;
when either half holds no snapshot it yields nothing (and raises nothing).
In particular two snapshots, one per half, yield change = lateValue −
earlyValue. -/
theorem temporal_change_spec (b e t1 v1 t2 v2 m1 m2 : ℚ)
    (snaps : List (ℚ × ℚ)) :
    (medianRat ((snaps.filter
            (fun s => decide (b ≤ s.1) && decide (s.1 < b + (e - b) / 2))).map
          Prod.snd) = some m1 →
      medianRat ((snaps.filter
            (fun s => decide (b + (e - b) / 2 ≤ s.1) && decide (s.1 < e))).map
          Prod.snd) = some m2 →
        temporal_flood_analysis b e snaps
          = some (m2 - m1, decide (1/5 < |m2 - m1|))) ∧
    (snaps.filter
          (fun s => decide (b ≤ s.1) && decide (s.1 < b + (e - b) / 2)) = [] →
        temporal_flood_analysis b e snaps = none) ∧
    (snaps.filter
          (fun s => decide (b + (e - b) / 2 ≤ s.1) && decide (s.1 < e)) = [] →
        temporal_flood_analysis b e snaps = none) ∧
    (b ≤ t1 → t1 < b + (e - b) / 2 → b + (e - b) / 2 ≤ t2 → t2 < e →
        temporal_flood_analysis b e [(t1, v1), (t2, v2)]
          = some (v2 - v1, decide (1/5 < |v2 - v1|))) := by
  refine ⟨?_, ?_, ?_, ?_⟩
  · intro h1 h2
    simp only [temporal_flood_analysis]
    rw [h1, h2]
  · intro h
    simp only [temporal_flood_analysis, h]
    simp [medianRat, sortRat]
  · intro h
    simp only [temporal_flood_analysis, h, List.map_nil]
    cases medianRat ((snaps.filter
        (fun s => decide (b ≤ s.1) && decide (s.1 < b + (e - b) / 2))).map
          Prod.snd) with
    | none => simp [medianRat, sortRat]
    | some a => simp [medianRat, sortRat]
  · intro h1 h2 h3 h4
    have h2n : ¬ b + (e - b) / 2 ≤ t1 := not_le.mpr h2
    have h3n : ¬ t2 < b + (e - b) / 2 := not_lt.mpr h3
    simp [temporal_flood_analysis, List.filter, h1, h2, h3, h4, h2n, h3n,
      medianRat, sortRat, insertRat]

/-- Witness for `temporal_change_spec`: window [0, 4), snapshots at dates
1 and 3 with values 2 and 3 give change 1 with the change flag set; and a
window [0, 2) whose early half [0, 1) holds no snapshot gives nothing. -/
theorem temporal_change_spec_witness :
    temporal_flood_analysis 0 4 [(1, 2), (3, 3)] = some (1, true) ∧
    temporal_flood_analysis 0 2 [(5, 7)] = none := by
  constructor
  · have h := (temporal_change_spec 0 4 1 2 3 3 0 0 []).2.2.2
      (by norm_num) (by norm_num) (by norm_num) (by norm_num)
    rw [h]
    norm_num
  · exact (temporal_change_spec 0 2 0 0 0 0 0 0 [(5, 7)]).2.1
      (by norm_num [List.filter])

/-! ## Result cache (`cache_manager.py`) -/

/-- Python `str.strip()` (whitespace at both ends), used by `make_key`. -/
def pyStrip (s : String) : String :=
  String.mk (((s.data.dropWhile Char.isWhitespace).reverse.dropWhile
    Char.isWhitespace).reverse)

/-- Python `str.rstrip("|")`: drop trailing bar characters. -/
def pyRstripBar (s : String) : String :=
  String.mk ((s.data.reverse.dropWhile (fun c => c = '|')).reverse)

/-- Python `key.startswith(pre)`. -/
def pyStartswith (s pre : String) : Bool :=
  pre.data.isPrefixOf s.data

/-- `CacheManager.make_key` (lines 39-44): join namespace, stripped name and
stripped parts with the constant separator `"|"`. -/
def make_key (ns name : String) (parts : List String) : String :=
  String.intercalate "|" (ns :: pyStrip name :: parts.map pyStrip)

/-- `CacheManager.key_context` (lines 46-57): `make_key` over the ordered
`field=value` segments for department and period, plus the optional
discriminator. -/
def key_context (ns name dpt begin end_ : String) (extra : Option String) :
    String :=
  make_key ns name (["dpt=" ++ dpt, "b=" ++ begin, "e=" ++ end_]
    ++ (match extra with | some x => ["x=" ++ x] | none => []))

/-- The scope prefix derived inside `CacheManager.clear_context`
(lines 107-109): `make_key("", [dpt=…, b=…, e=…]).rstrip("|")`. -/
def clear_context_scope (ns dpt begin end_ : String) : String :=
  pyRstripBar (make_key ns "" ["dpt=" ++ dpt, "b=" ++ begin, "e=" ++ end_])

/-- The diskcache store: one entry per line holds (key, stored Python
value — possibly `None` —, expiry time).  Time is an abstract tick
counter. -/
abbrev CacheStore (β : Type) := List (String × Option β × ℕ)

/-- `CacheManager.clear_prefix` (lines 86-100): delete every entry whose
key starts with the prefix and return the surviving store together with
the number of deleted entries. -/
def clear_prefix {β : Type} (c : CacheStore β) (p : String) :
    CacheStore β × ℕ :=
  (c.filter (fun e => !(pyStartswith e.1 p)),
    (c.filter (fun e => pyStartswith e.1 p)).length)

/-- `CacheManager.clear_context` (lines 102-110): derive the scope prefix
and delegate to `clear_prefix`. -/
def clear_context {β : Type} (ns : String) (c : CacheStore β)
    (dpt begin end_ : String) : CacheStore β × ℕ :=
  clear_prefix c (clear_context_scope ns dpt begin end_)

/-- `diskcache.Cache.get(key, default=None)`: the stored value of the first
live (unexpired, `t < expiry`) entry for the key, else `None`.  A stored
`None` and a missing entry are indistinguishable to the caller. -/
def cacheGet {β : Type} (c : CacheStore β) (k : String) (t : ℕ) : Option β :=
  match c.find? (fun e => decide (e.1 = k) && decide (t < e.2.2)) with
  | some e => e.2.1
  | none => none

/-- `diskcache.Cache.set(key, val, expire=e)` at time `t`: store the value
with expiry `t + e`, replacing any previous entry for the key. -/
def cacheSet {β : Type} (c : CacheStore β) (k : String) (v : Option β)
    (e t : ℕ) : CacheStore β :=
  (k, v, t + e) :: c.filter (fun en => !(decide (en.1 = k)))

/-- Python `expire or self.default_ttl` (line 77): `None` and `0` are both
falsy, so either yields the default TTL. -/
def pyOr (expire : Option ℕ) (default_ttl : ℕ) : ℕ :=
  match expire with
  | none => default_ttl
  | some v => if v = 0 then default_ttl else v

/-- Result of one `getset` call: the returned value, the store afterwards,
and whether `compute_fn` was invoked. -/
structure GetsetResult (β : Type) where
  val : Option β
  store : CacheStore β
  invoked : Bool

/-- `CacheManager.getset` (lines 62-81): return the cached value when
`get` yields non-`None`; otherwise invoke `compute_fn`, attempt the store
write (`writeOk = false` models a failing `set`, whose exception is
swallowed at lines 78-80), and return the fresh value. -/
def getset {β : Type} (c : CacheStore β) (writeOk : Bool) (k : String)
    (compute_fn : Unit → Option β) (expire : Option ℕ) (default_ttl t : ℕ) :
    GetsetResult β :=
  match cacheGet c k t with
  | some v => ⟨some v, c, false⟩
  | none =>
    let v := compute_fn ()
    let c2 := if writeOk then cacheSet c k v (pyOr expire default_ttl) t else c
    ⟨v, c2, true⟩

/-- A store holding no entry for a key answers `get` with `None`. -/
theorem cacheGet_of_no_key {β : Type} (c : CacheStore β) (k : String)
    (t : ℕ) (h : ∀ e ∈ c, e.1 ≠ k) : cacheGet c k t = none := by
  unfold cacheGet
  have hf : c.find? (fun e => decide (e.1 = k) && decide (t < e.2.2))
      = none := by
    rw [List.find?_eq_none]
    intro e he
    simp [h e he]
  rw [hf]

/-- A freshly `set` key is a live hit strictly before its expiry. -/
theorem cacheGet_cacheSet_hit {β : Type} (c : CacheStore β) (k : String)
    (v : Option β) (e t t2 : ℕ) (h : t2 < t + e) :
    cacheGet (cacheSet c k v e t) k t2 = v := by
  unfold cacheGet cacheSet
  rw [List.find?_cons_of_pos]
  simp [h]

/-- After its expiry, a `set` key behaves as missing when the rest of the
store holds no entry for it. -/
theorem cacheGet_cacheSet_expired {β : Type} (c : CacheStore β) (k : String)
    (v : Option β) (e t t2 : ℕ) (h : ¬ t2 < t + e)
    (hn : ∀ en ∈ c, en.1 ≠ k) :
    cacheGet (cacheSet c k v e t) k t2 = none := by
  unfold cacheGet cacheSet
  rw [List.find?_cons_of_neg]
  · have hf : (c.filter (fun en => !(decide (en.1 = k)))).find?
        (fun en => decide (en.1 = k) && decide (t2 < en.2.2)) = none := by
      rw [List.find?_eq_none]
      intro en hen
      have hne := (List.mem_filter.mp hen).2
      simp only [Bool.not_eq_eq_eq_not, Bool.not_true, decide_eq_false_iff_not]
        at hne
      simp [hne]
    rw [hf]
  · simp [h]

/-- `clear_prefix` with a prefix of `k` leaves no entry for `k`. -/
theorem cacheGet_clear_prefix {β : Type} (c : CacheStore β) (k p : String)
    (t : ℕ) (h : pyStartswith k p = true) :
    cacheGet ( clear_prefix c p).1 k t = none := by
  apply cacheGet_of_no_key
  intro e he hk
  have hmem := List.mem_filter.mp he
  rw [hk, h] at hmem
  simp at hmem

/-- C6: the scope prefix that `clear_context` derives keeps an empty name
segment (`rstrip("|")` only trims trailing bars), so it is
`"SEKHEM||dpt=…"` while every `key_context` key with a non-empty operation
name is `"SEKHEM|name|dpt=…"`; the prefix therefore matches no such key
and `clear_context` deletes nothing: on a store holding exactly the
context key for the same department and period, it removes 0 entries and
leaves the store unchanged. -/
theorem clear_context_misses_context_keys :
    pyStartswith
        (key_context "SEKHEM" "stats" "Dakar" "2024-01-01" "2024-06-30" none)
        (clear_context_scope "SEKHEM" "Dakar" "2024-01-01" "2024-06-30")
      = false ∧
    clear_context_scope "SEKHEM" "Dakar" "2024-01-01" "2024-06-30"
      = "SEKHEM||dpt=Dakar|b=2024-01-01|e=2024-06-30" ∧
    key_context "SEKHEM" "stats" "Dakar" "2024-01-01" "2024-06-30" none
      = "SEKHEM|stats|dpt=Dakar|b=2024-01-01|e=2024-06-30" ∧
    ( clear_context "SEKHEM"
        [(key_context "SEKHEM" "stats" "Dakar" "2024-01-01" "2024-06-30" none,
          some (1 : ℕ), 100)] "Dakar" "2024-01-01" "2024-06-30").2 = 0 ∧
    ( clear_context "SEKHEM"
        [(key_context "SEKHEM" "stats" "Dakar" "2024-01-01" "2024-06-30" none,
          some (1 : ℕ), 100)] "Dakar" "2024-01-01" "2024-06-30").1
      = [(key_context "SEKHEM" "stats" "Dakar" "2024-01-01" "2024-06-30" none,
          some (1 : ℕ), 100)] := by
  decide

/-- C7 counterexample: with a compute function returning `None`, two
`getset` calls on the same key within the TTL invoke the function twice,
not exactly once as the claim states for every compute function. -/
theorem getset_none_recompute_counterexample :
    (getset ([] : CacheStore ℕ) true "k" (fun _ => none) none 7200 0).invoked
      = true ∧
    (getset (getset ([] : CacheStore ℕ) true "k" (fun _ => none) none 7200
        0).store true "k" (fun _ => none) none 7200 1).invoked = true ∧
    (1 : ℕ) < 0 + pyOr none 7200 := by
  decide

/-- C7 amended: for a key with no entry in the store and a compute function
whose result is not `None`, `getset` invokes the function on the first
call and returns its value; a second call strictly within the TTL serves
the cached value without invoking it again; after `clear_prefix` with a
prefix of the key, or once the TTL has expired, a subsequent call invokes
it again; and a failing store write (`writeOk = false`) is swallowed, the
freshly computed value still being returned. -/
theorem getset_memoization_amended {β : Type} (c : CacheStore β)
    (k p : String) (v : β) (expire : Option ℕ) (d t t2 : ℕ)
    (hn : ∀ e ∈ c, e.1 ≠ k) :
    (getset c true k (fun _ => some v) expire d t).invoked = true ∧
    (getset c true k (fun _ => some v) expire d t).val = some v ∧
    (t2 < t + pyOr expire d →
        (getset (getset c true k (fun _ => some v) expire d t).store true k
            (fun _ => some v) expire d t2).invoked = false ∧
        (getset (getset c true k (fun _ => some v) expire d t).store true k
            (fun _ => some v) expire d t2).val = some v) ∧
    (t + pyOr expire d ≤ t2 →
        (getset (getset c true k (fun _ => some v) expire d t).store true k
            (fun _ => some v) expire d t2).invoked = true) ∧
    (pyStartswith k p = true →
        (getset ( clear_prefix
            (getset c true k (fun _ => some v) expire d t).store p).1 true k
            (fun _ => some v) expire d t2).invoked = true) ∧
    (getset c false k (fun _ => some v) expire d t).val = some v ∧
    (getset c false k (fun _ => some v) expire d t).invoked = true := by
  have hget : cacheGet c k t = none := cacheGet_of_no_key c k t hn
  have hstore : (getset c true k (fun _ => some v) expire d t).store
      = cacheSet c k (some v) (pyOr expire d) t := by
    simp [getset, hget]
  refine ⟨by simp [getset, hget], by simp [getset, hget], ?_, ?_, ?_,
    by simp [getset, hget], by simp [getset, hget]⟩
  · intro h
    rw [hstore]
    have hhit := cacheGet_cacheSet_hit c k (some v) (pyOr expire d) t t2 h
    constructor <;> simp [getset, hhit]
  · intro h
    rw [hstore]
    have hmiss := cacheGet_cacheSet_expired c k (some v) (pyOr expire d) t t2
      (not_lt.mpr h) hn
    simp [getset, hmiss]
  · intro h
    rw [hstore]
    have hcl := cacheGet_clear_prefix
      (cacheSet c k (some v) (pyOr expire d) t) k p t2 h
    simp [getset, hcl]

/-- Witness for `getset_memoization_amended` at a concrete store, key and
times: the first call invokes the compute function, the second (within the
TTL) does not. -/
theorem getset_memoization_amended_witness :
    (getset ([("other", some 0, 5)] : CacheStore ℕ) true "k"
        (fun _ => some 1) none 7200 0).invoked = true ∧
    (getset (getset ([("other", some 0, 5)] : CacheStore ℕ) true "k"
        (fun _ => some 1) none 7200 0).store true "k" (fun _ => some 1) none
        7200 3).invoked = false := by
  have h := getset_memoization_amended ([("other", some 0, 5)] : CacheStore ℕ)
    "k" "k" 1 none 7200 0 3 (by decide)
  exact ⟨h.1, (h.2.2.1 (by decide)).1⟩

/-- C10: a `None` result of `compute_fn` is never served from the cache:
on a key with no prior entry, `getset` with a `None`-returning compute
function returns `None` and invokes it, and any later `getset` on the same
key — whatever its compute function, write outcome or time, even strictly
within the TTL — treats the stored entry as a miss and invokes its compute
function again. -/
theorem getset_none_not_memoized {β : Type} (c : CacheStore β) (k : String)
    (f2 : Unit → Option β) (expire : Option ℕ) (d t t2 : ℕ) (w1 w2 : Bool)
    (hn : ∀ e ∈ c, e.1 ≠ k) :
    (getset c w1 k (fun _ => none) expire d t).val = none ∧
    (getset c w1 k (fun _ => none) expire d t).invoked = true ∧
    (getset (getset c w1 k (fun _ => none) expire d t).store w2 k f2 expire d
        t2).invoked = true := by
  have hget : cacheGet c k t = none := cacheGet_of_no_key c k t hn
  refine ⟨by simp [getset, hget], by simp [getset, hget], ?_⟩
  have hstore : (getset c w1 k (fun _ => none) expire d t).store
      = if w1 then cacheSet c k none (pyOr expire d) t else c := by
    simp [getset, hget]
  rw [hstore]
  cases w1 with
  | false =>
    have hget2 : cacheGet c k t2 = none := cacheGet_of_no_key c k t2 hn
    simp [getset, hget2]
  | true =>
    by_cases hlt : t2 < t + pyOr expire d
    · have hh := cacheGet_cacheSet_hit c k none (pyOr expire d) t t2 hlt
      simp [getset, hh]
    · have hh := cacheGet_cacheSet_expired c k none (pyOr expire d) t t2
        hlt hn
      simp [getset, hh]

/-- Witness for `getset_none_not_memoized`: after a first call whose
compute function returned `None`, a second call within the TTL invokes its
compute function again. -/
theorem getset_none_not_memoized_witness :
    (getset (getset ([("a", some 5, 10)] : CacheStore ℕ) true "k"
        (fun _ => none) none 7200 0).store true "k" (fun _ => some 3) none
        7200 1).invoked = true :=
  (getset_none_not_memoized ([("a", some 5, 10)] : CacheStore ℕ) "k"
    (fun _ => some 3) none 7200 0 1 true true (by decide)).2.2
